import Mathlib

/-!
Shallow embedding of the content-classification and rename engine of
`src/app.py` (an AI-free, rule-based smart file renamer).  Pure string
processing functions of the Python source are translated into executable
Lean functions over `String` / `List Char`; Python's `re` patterns, which
are all star-height-one patterns over disjoint character classes, are
translated into equivalent deterministic recursive matchers.  The section
markers below cite the corresponding lines of `src/app.py`.
-/

namespace SmartRename

/-! ### Character predicates

Python string methods are Unicode aware.  The predicates below model the
CPython behaviour of `str.lower`, `str.isdigit` / regex `\d`, regex `\s`
and `str.isalnum` restricted to the character ranges that occur in this
program and its inputs (ASCII, hiragana, katakana, CJK ideographs); all
characters actually manipulated by the source (keywords, separators,
currency marks, name classes) fall in these ranges. -/

/-- ASCII uppercase letter, the `[A-Z]` class of the source's regexes. -/
def isAsciiUpper (c : Char) : Bool := 'A' ≤ c && c ≤ 'Z'

/-- ASCII lowercase letter, the `[a-z]` class of the source's regexes. -/
def isAsciiLower (c : Char) : Bool := 'a' ≤ c && c ≤ 'z'

/-- Decimal digit: models CPython `str.isdigit` and the regex class `\d`
for the ranges occurring here (ASCII digits and fullwidth digits). -/
def pyIsDigit (c : Char) : Bool :=
  ('0' ≤ c && c ≤ '9') || ('０' ≤ c && c ≤ '９')

/-- Whitespace: models the regex class `\s` and the default chars stripped
by `str.strip` (ASCII whitespace, NBSP, ideographic space U+3000). -/
def isPySpace (c : Char) : Bool :=
  c = ' ' || c = '\t' || c = '\n' || c = '\u000B' || c = '\u000C' ||
  c = '\u000D' || c = ' ' || c = '　'

/-- Alphanumeric test: models CPython `str.isalnum` on the ranges relevant
here: ASCII letters and digits, fullwidth digits, hiragana (U+3041–3096),
katakana (U+30A1–30FA) with the prolonged sound mark `ー` (U+30FC), and
CJK unified ideographs (U+4E00–9FFF).  Symbols such as spaces, `¥`, `円`'s
neighbours like `、`/`。`, `@`, `:` are not alphanumeric, exactly as in
CPython. -/
def pyIsAlnum (c : Char) : Bool :=
  ('0' ≤ c && c ≤ '9') || ('A' ≤ c && c ≤ 'Z') || ('a' ≤ c && c ≤ 'z') ||
  ('０' ≤ c && c ≤ '９') ||
  ('ぁ' ≤ c && c ≤ 'ゖ') ||
  ('ァ' ≤ c && c ≤ 'ヺ') || c = 'ー' ||
  ('一' ≤ c && c ≤ '鿿')

/-- Models CPython `str.lower` character-wise (ASCII case folding; the
non-ASCII characters used by this program are caseless). -/
def pyLowerChar (c : Char) : Char :=
  if isAsciiUpper c then Char.ofNat (c.toNat + 32) else c

/-- Lowercase a character list, as Python's `text.lower()`. -/
def pyLower (cs : List Char) : List Char := cs.map pyLowerChar

/-! ### List-of-characters utilities -/

/-- Does `pat` occur at the head of `cs`? -/
def startsWithL : List Char → List Char → Bool
  | [], _ => true
  | _ :: _, [] => false
  | p :: ps, c :: cs => p = c && startsWithL ps cs

/-- Substring containment, modelling Python's `pat in hay`. -/
def containsL (hay pat : List Char) : Bool :=
  startsWithL pat hay ||
    match hay with
    | [] => false
    | _ :: t => containsL t pat

/-- Models Python `str.strip()` (default whitespace) on a char list. -/
def pyStripL (cs : List Char) : List Char :=
  ((cs.dropWhile isPySpace).reverse.dropWhile isPySpace).reverse

/-- Models Python `str.strip('_')` on a char list (line 460 of app.py). -/
def stripUnderscoresL (cs : List Char) : List Char :=
  ((cs.dropWhile (· = '_')).reverse.dropWhile (· = '_')).reverse

/-- Models Python `text.split('\n')` (keeps empty pieces; `""` gives
one empty piece, as in Python). -/
def splitNL : List Char → List (List Char)
  | [] => [[]]
  | '\n' :: rest => [] :: splitNL rest
  | c :: rest =>
    match splitNL rest with
    | [] => [[c]]
    | l :: ls => (c :: l) :: ls

/-! ### os.path.splitext

Models CPython `posixpath.splitext`: split at the last `.` of the last
path component, except that a component consisting of leading dots only
has no extension. -/

/-- Index (0-based) of the last occurrence of `c` in `cs`, if any. -/
def lastIdx (c : Char) (cs : List Char) : Option Nat :=
  match cs with
  | [] => none
  | a :: rest =>
    match lastIdx c rest with
    | some i => some (i + 1)
    | none => if a = c then some 0 else none

/-- Models `os.path.splitext` (posix, `sep = '/'`) on a char list:
returns `(root, ext)` with `root ++ ext = cs`. -/
def splitextL (cs : List Char) : List Char × List Char :=
  let start : Nat :=
    match lastIdx '/' cs with
    | some i => i + 1
    | none => 0
  match lastIdx '.' cs with
  | none => (cs, [])
  | some d =>
    if start ≤ d then
      -- skip all leading dots of the final component
      if ((cs.drop start).take (d - start)).any (fun c => c ≠ '.') then
        (cs.take d, cs.drop d)
      else (cs, [])
    else (cs, [])

/-- String version of `splitextL`, the `os.path.splitext` of line 429. -/
def splitext (p : String) : String × String :=
  let r := splitextL p.data
  (String.mk r.1, String.mk r.2)

/-! ### sanitize_filename (app.py lines 436-439) -/

/-- Characters kept by `sanitize_filename`: alphanumeric or one of
`.`, `_`, `-` (the Python test `c.isalnum() or c in '._-'`). -/
def keepChar (c : Char) : Bool :=
  pyIsAlnum c || c = '.' || c = '_' || c = '-'

/-- Models `sanitize_filename` (app.py lines 436-439): replace spaces by
underscores, then keep only alphanumeric characters and `.`, `_`, `-`. -/
def sanitize_filename (name : String) : String :=
  let safe := name.data.map (fun c => if c = ' ' then '_' else c)
  String.mk (safe.filter keepChar)

/-! ### Theorems for sanitization claims -/

lemma keepChar_space_false : keepChar ' ' = false := by decide

lemma keepChar_map_space (l : List Char) :
    (l.filter keepChar).map (fun c => if c = ' ' then '_' else c)
      = l.filter keepChar := by
  induction l with
  | nil => rfl
  | cons c t ih =>
    by_cases h : keepChar c
    · have hc : c ≠ ' ' := by
        intro e; rw [e] at h; simp [keepChar_space_false] at h
      simp [List.filter_cons, h, hc, ih]
    · simp [List.filter_cons, h, ih]

/-- Claim C9: the sanitize step (replace spaces with underscores, then
strip every character that is not alphanumeric, `.`, `_`, or `-`) is
idempotent: for every string `s`,
`sanitize_filename (sanitize_filename s) = sanitize_filename s`. -/
theorem sanitize_filename_idempotent (s : String) :
    sanitize_filename (sanitize_filename s) = sanitize_filename s := by
  unfold sanitize_filename
  apply congrArg String.mk
  rw [show (String.mk ((s.data.map fun c => if c = ' ' then '_' else c).filter
      keepChar)).data
      = (s.data.map fun c => if c = ' ' then '_' else c).filter keepChar
      from rfl]
  rw [keepChar_map_space, List.filter_filter]
  simp

/-- Claim C10: the sanitize step treats Unicode letters and digits as
alphanumeric, not only ASCII: every string consisting solely of Unicode
alphanumeric characters (in the modelled blocks: ASCII, hiragana,
katakana, CJK ideographs) and the characters `.`, `_`, `-` is returned
unchanged by `sanitize_filename`. -/
theorem sanitize_filename_unicode_id (s : String)
    (h : ∀ c ∈ s.data, keepChar c = true) :
    sanitize_filename s = s := by
  unfold sanitize_filename
  have hnsp : ∀ c ∈ s.data, c ≠ ' ' := by
    intro c hc he
    have := h c hc
    rw [he] at this
    simp [keepChar_space_false] at this
  have hmap : s.data.map (fun c => if c = ' ' then '_' else c) = s.data := by
    conv_rhs => rw [← List.map_id s.data]
    exact List.map_congr_left (fun c hc => by simp [hnsp c hc])
  show String.mk ((s.data.map (fun c => if c = ' ' then '_' else c)).filter
      keepChar) = s
  rw [hmap, List.filter_eq_self.mpr h]

/-- Witness for C10 at a concrete Japanese filename base: kanji, katakana
(with the prolonged sound mark), ASCII digits, `.`, `_`, `-` all survive
sanitization unchanged. -/
theorem sanitize_filename_unicode_id_witness :
    (∀ c ∈ ("請求書データ_2024.05-予備".data), keepChar c = true) ∧
      sanitize_filename "請求書データ_2024.05-予備" = "請求書データ_2024.05-予備" :=
  ⟨by decide, sanitize_filename_unicode_id "請求書データ_2024.05-予備" (by decide)⟩

/-! ### Line preprocessing (app.py lines 228-232, 290)

`text_lines = [line.strip() for line in text_content.split('\n') if line.strip()]`,
`first_10_lines = '\n'.join(text_lines[:10]).strip()`,
`header_lines = text_lines[:10]`. -/

/-- The stripped non-empty lines of the text (app.py line 231). -/
def textLines (text : String) : List (List Char) :=
  ((splitNL text.data).map pyStripL).filter (fun l => l ≠ [])

/-- The first ten header lines joined back with newlines and stripped
(app.py line 232). -/
def first10 (text : String) : List Char :=
  pyStripL (List.intercalate ['\n'] ((textLines text).take 10))

/-- The first ten header lines as a list (app.py line 290). -/
def headerLines (text : String) : List (List Char) :=
  (textLines text).take 10

/-! ### Date pattern (app.py line 253)

Python regex `\d 4 times, then dash|slash|年, then \d 1-2 times, then dash|slash|月, then \d 1-2 times, then optional 日` (class brackets omitted here to keep the comment well formed), used with
`re.search`.  The quantified pieces range over pairwise disjoint
character classes, so Python's leftmost/greedy matching is implemented
directly: at the leftmost matching position, `\d{1,2}` takes two digits
when it can (a digit is never a separator, so no backtracking can occur)
and the trailing `日?` is taken when present. -/

/-- Character class: dash, slash, or 年. -/
def isDateSep1 (c : Char) : Bool := c = '-' || c = '/' || c = '年'

/-- Character class: dash, slash, or 月. -/
def isDateSep2 (c : Char) : Bool := c = '-' || c = '/' || c = '月'

/-- Matches `\d{1,2}日?` at the head of the list (greedy), returning the
matched characters. -/
def matchD12Day (cs : List Char) : Option (List Char) :=
  match cs with
  | a :: b :: rest =>
    if pyIsDigit a && pyIsDigit b then
      some ([a, b] ++ (if rest.head? = some '日' then ['日'] else []))
    else if pyIsDigit a then
      some ([a] ++ (if b = '日' then ['日'] else []))
    else none
  | [a] => if pyIsDigit a then some [a] else none
  | [] => none

/-- Matches digits 1-2, a dash|slash|月 separator, digits 1-2, optional 日, at the head of the list. -/
def matchD12Sep (cs : List Char) : Option (List Char) :=
  match cs with
  | a :: b :: rest =>
    if pyIsDigit a then
      if pyIsDigit b then
        match rest with
        | c :: rest2 =>
          if isDateSep2 c then (matchD12Day rest2).map (fun m => a :: b :: c :: m)
          else none
        | [] => none
      else if isDateSep2 b then (matchD12Day rest).map (fun m => a :: b :: m)
      else none
    else none
  | _ => none

/-- Matches the full date pattern at the head of the list. -/
def matchDateAt (cs : List Char) : Option (List Char) :=
  match cs with
  | a :: b :: c :: d :: e :: rest =>
    if pyIsDigit a && pyIsDigit b && pyIsDigit c && pyIsDigit d && isDateSep1 e
    then (matchD12Sep rest).map (fun m => a :: b :: c :: d :: e :: m)
    else none
  | _ => none

/-- Models `re.search` of the date pattern: the match at the leftmost
matching position (app.py line 253). -/
def searchDate : List Char → Option (List Char)
  | [] => none
  | c :: rest =>
    match matchDateAt (c :: rest) with
    | some m => some m
    | none => searchDate rest

/-! ### Amount pattern (app.py line 254)

Python regex `([¥￥$€£]\s*[\d,]+\.?\d*|[\d,]+\s*(円|yen))`.  Again all
neighbouring quantified classes are disjoint, so greedy matching without
backtracking is faithful; alternative 1 is tried before alternative 2 at
each position, and positions are tried left to right. -/

/-- The currency-symbol class `[¥￥$€£]`. -/
def isCurrencyChar (c : Char) : Bool :=
  c = '¥' || c = '￥' || c = '$' || c = '€' || c = '£'

/-- The class `[\d,]`. -/
def isDigitComma (c : Char) : Bool := pyIsDigit c || c = ','

/-- Alternative 1, `[¥￥$€£]\s*[\d,]+\.?\d*`, at the head of the list. -/
def matchAmountAlt1 (cs : List Char) : Option (List Char) :=
  match cs with
  | [] => none
  | c :: rest =>
    if isCurrencyChar c then
      let sp := rest.takeWhile isPySpace
      let r1 := rest.drop sp.length
      let dg := r1.takeWhile isDigitComma
      if dg = [] then none
      else
        match r1.drop dg.length with
        | '.' :: r3 => some (c :: sp ++ dg ++ '.' :: r3.takeWhile pyIsDigit)
        | _ => some (c :: sp ++ dg)
    else none

/-- Alternative 2, `[\d,]+\s*(円|yen)`, at the head of the list. -/
def matchAmountAlt2 (cs : List Char) : Option (List Char) :=
  let dg := cs.takeWhile isDigitComma
  if dg = [] then none
  else
    let r1 := cs.drop dg.length
    let sp := r1.takeWhile isPySpace
    let r2 := r1.drop sp.length
    if startsWithL ['円'] r2 then some (dg ++ sp ++ ['円'])
    else if startsWithL ['y', 'e', 'n'] r2 then some (dg ++ sp ++ ['y', 'e', 'n'])
    else none

/-- Matches the amount pattern at the head of the list. -/
def matchAmountAt (cs : List Char) : Option (List Char) :=
  match matchAmountAlt1 cs with
  | some m => some m
  | none => matchAmountAlt2 cs

/-- Models `re.search` of the amount pattern (app.py line 254). -/
def searchAmount : List Char → Option (List Char)
  | [] => none
  | c :: rest =>
    match matchAmountAt (c :: rest) with
    | some m => some m
    | none => searchAmount rest

/-! ### Name-line patterns (app.py lines 284-285, 304)

`name_re_ja` is the group of 2-5 Japanese name characters followed by any
number of repetitions of optional whitespace plus 1-5 more name
characters; `name_re_en` is an English name shape.  Both are used with
`re.match(pattern + end-anchor, line)`, i.e. as a full-line match (the
lines contain no newline).  Because the name classes are disjoint from
whitespace, a backtracking match succeeds exactly when the greedy
chunking below succeeds. -/

/-- Character class of Japanese name characters: CJK ideographs 一..龠,
katakana ァ..ヴ, the prolonged mark ー, hiragana あ..ん. -/
def isJaNameChar (c : Char) : Bool :=
  ('一' ≤ c && c ≤ '龠') || ('ァ' ≤ c && c ≤ 'ヴ') || c = 'ー' ||
  ('あ' ≤ c && c ≤ 'ん')

/-- Accepts the trailing repetitions of optional whitespace plus chunks of
1-5 Japanese name characters, consuming the whole list.  Since chunks of
1-5 characters may follow each other with no whitespace between them, the
accepted language is exactly: every character is a name character or
whitespace and no whitespace run is at the end.  `inSpace` records that
the previous character was whitespace (so at least one further name
character is still required). -/
def jaRest (inSpace : Bool) (cs : List Char) : Bool :=
  match cs with
  | [] => !inSpace
  | c :: rest =>
    if isJaNameChar c then jaRest false rest
    else if isPySpace c then jaRest true rest
    else false

/-- Full-line match of the Japanese name pattern with end anchor: the line
starts with 2-5 name characters (hence a maximal leading run of at least
two), followed by whitespace-separated chunks of further name
characters. -/
def matchJaFull (cs : List Char) : Bool :=
  let run := cs.takeWhile isJaNameChar
  if run.length < 2 then false else jaRest false (cs.drop run.length)

/-- Lowercase letter or dot: the class of trailing characters of an
English name token after its initial capital. -/
def isLowerDot (c : Char) : Bool := isAsciiLower c || c = '.'

/-- Accepts repetitions of a single whitespace, an uppercase letter and
any number of lowercase letters or dots, consuming the whole list.  When
`inTok` is true the scanner is inside a token and may still consume
lowercase letters and dots. -/
def enRest (inTok : Bool) (cs : List Char) : Bool :=
  match cs with
  | [] => true
  | c :: rest =>
    if inTok && isLowerDot c then enRest true rest
    else if isPySpace c then
      match rest with
      | c2 :: r2 => isAsciiUpper c2 && enRest true r2
      | [] => false
    else false

/-- Full-line match of the English name pattern (uppercase letter, one or
more lowercase letters, then space-separated capitalised tokens) with the
end anchor. -/
def matchEnFull (cs : List Char) : Bool :=
  match cs with
  | [] => false
  | c :: rest =>
    isAsciiUpper c &&
      (let lows := rest.takeWhile isAsciiLower
       decide (0 < lows.length) && enRest false (rest.drop lows.length))

/-- A line shaped like a bare author name (app.py line 304): full match
of the Japanese or the English name pattern. -/
def nameLineMatch (line : List Char) : Bool :=
  matchJaFull line || matchEnFull line

/-! ### Organization and noise patterns (app.py lines 287, 320, 329) -/

/-- Models `re.search` of `org_keywords_re` with IGNORECASE (app.py
lines 287, 311): one of the organization keywords occurs in the line,
ASCII-case-insensitively. -/
def orgHit (line : List Char) : Bool :=
  ["大学", "研究室", "株式会社", "school of", "university", "dept"].any
    (fun k => containsL (pyLower line) k.data)

/-- Matches `Vol.` then optional whitespace then a digit at the head of
an already lowercased list. -/
def volNumAt (cs : List Char) : Bool :=
  match cs with
  | 'v' :: 'o' :: 'l' :: '.' :: rest =>
    match rest.dropWhile isPySpace with
    | c :: _ => pyIsDigit c
    | [] => false
  | _ => false

/-- Does the lowercased list contain the `Vol.` + number pattern? -/
def hasVolNum : List Char → Bool
  | [] => false
  | c :: rest => volNumAt (c :: rest) || hasVolNum rest

/-- Journal-noise test of app.py line 320 (IGNORECASE search for the
volume pattern or one of Journal, ISSN, doi, SCU). -/
def noiseTitlePrev (line : List Char) : Bool :=
  let l := pyLower line
  hasVolNum l || containsL l "journal".data || containsL l "issn".data ||
  containsL l "doi".data || containsL l "scu".data

/-- Journal-noise test of app.py line 329, which additionally rejects
抄録 and Abstract (IGNORECASE). -/
def noiseLongLine (line : List Char) : Bool :=
  noiseTitlePrev line ||
  containsL (pyLower line) "抄録".data ||
  containsL (pyLower line) "abstract".data

/-! ### Keyword scoring (app.py lines 247-276) -/

/-- The fixed invoice keyword list of app.py line 247. -/
def invoice_keywords : List String :=
  ["請求書", "領収書", "明細", "invoice", "receipt", "合計金額", "御中"]

/-- The fixed authored-document keyword list of app.py lines 269-273.
(`Report` is checked against the lowercased text exactly as in the
source, where its capital letter makes it unmatchable.) -/
def author_doc_keywords : List String :=
  ["abstract", "introduction", "author",
   "抄録", "緒言", "序論", "著者", "発表年", "研究報告", "キーワード",
   "レポート", "Report", "技術資料", "作成者", "執筆者"]

/-- Invoice score of app.py lines 238-261: +5 for a keyword in the
lowercased text, +5 for a date pattern in the first ten lines, +5 for an
amount pattern in the first ten lines. -/
def scoreInvoice (text : String) : Nat :=
  (if invoice_keywords.any (fun k => containsL (pyLower text.data) k.data)
   then 5 else 0) +
  (if (searchDate (first10 text)).isSome then 5 else 0) +
  (if (searchAmount (first10 text)).isSome then 5 else 0)

/-- The keyword part of the authored-document score (app.py lines
274-276): +5 if any keyword occurs in the lowercased text. -/
def authorKeywordScore (text : String) : Nat :=
  if author_doc_keywords.any (fun k => containsL (pyLower text.data) k.data)
  then 5 else 0

/-! ### Structural author detection (app.py lines 294-332)

The loop over the first ten non-empty lines: a line fully matching a
name pattern is a candidate; it is confirmed when the next header line
contains an organization keyword, in which case the preceding line
becomes the title candidate if long enough and not noise, and the loop
stops.  A non-name line longer than 20 characters that is not noise
updates the longest-line provisional title. -/

/-- One step of the header scan.  `prev` is the previous header line (if
any), `bestTitle` is the provisional longest-line title so far.  Returns
the confirmed author line (stripped) and the final title candidate. -/
def scanAux : Option (List Char) → List (List Char) → List Char →
    Option (List Char) × List Char
  | _, [], bestTitle => (none, bestTitle)
  | prev, line :: rest, bestTitle =>
    if nameLineMatch line then
      match rest with
      | next :: _ =>
        if orgHit next then
          let t :=
            match prev with
            | some p0 =>
              let p := pyStripL p0
              if 15 < p.length && !(noiseTitlePrev p) &&
                  !(containsL p "抄録".data) && !(containsL p "Abstract".data)
              then p else bestTitle
            | none => bestTitle
          (some (pyStripL line), t)
        else scanAux (some line) rest bestTitle
      | [] => scanAux (some line) rest bestTitle
    else
      let bt :=
        if 20 < line.length && !(noiseLongLine line) &&
            bestTitle.length < line.length
        then line else bestTitle
      scanAux (some line) rest bt

/-- The header scan of app.py lines 294-332 applied to the first ten
non-empty lines: returns `(best_author_candidate, best_title_candidate)`. -/
def headerScan (text : String) : Option (List Char) × List Char :=
  scanAux none (headerLines text) []

/-- The authored-document score of app.py lines 264-338: the keyword
score, raised to at least 10 when a structural author line is confirmed
(`score_author_doc = max(score_author_doc, 10)` at line 337). -/
def scoreAuthorDoc (text : String) : Nat :=
  if (headerScan text).1.isSome then max (authorKeywordScore text) 10
  else authorKeywordScore text

/-! ### Data model (app.py lines 26-53)

The pydantic models.  `Category` is the four-valued literal type of line
42; the constructor names translate the Japanese literals 論文 (authored
document), 請求書・領収書 (invoice/receipt), その他 (other), 不明
(unknown). -/

/-- Classification category (app.py line 42). -/
inductive Category where
  | authoredDocument
  | invoice
  | other
  | unknown
deriving DecidableEq, Repr

/-- AuthorData (app.py lines 26-28). -/
structure AuthorData where
  author : String
  title : String
deriving DecidableEq, Repr

/-- InvoiceData (app.py lines 31-35). -/
structure InvoiceData where
  invoice_date : String
  invoice_amount : String
  invoice_issuer : String
  invoice_subject : String
deriving DecidableEq, Repr

/-- OtherData (app.py lines 38-39). -/
structure OtherData where
  title : String
deriving DecidableEq, Repr

/-- The tagged union of per-category extracted data (the Union of app.py
line 48; the raw-dict alternative is never produced by the program). -/
inductive ExtractedData where
  | authorData (d : AuthorData)
  | invoiceData (d : InvoiceData)
  | otherData (d : OtherData)
deriving DecidableEq, Repr

/-- AICoreResponse (app.py lines 44-53). -/
structure AICoreResponse where
  category : Category
  extracted_data : Option ExtractedData
  reasoning : String
  transcript : Option String := none
deriving DecidableEq, Repr

/-! ### Invoice-pattern extraction (app.py lines 382-391)

The extraction performed in the invoice branch: the first date match of
the first ten lines, with 年 and 月 replaced by hyphens and 日 removed
(the Python replace chain of line 383); the first amount match verbatim;
a constant issuer; the file name as subject. -/

/-- The invoice-pattern extractor: given a source text and the uploaded
file's name, build the `InvoiceData` of app.py lines 382-391. -/
def invoiceExtractFromText (text fileName : String) : InvoiceData :=
  let fl := first10 text
  let date_raw :=
    match searchDate fl with
    | some m => m
    | none => "YYYYMMDD".data
  let invoice_date :=
    (date_raw.map (fun c => if c = '年' || c = '月' then '-' else c)).filter
      (fun c => c ≠ '日')
  let amount :=
    match searchAmount fl with
    | some m => m
    | none => "0".data
  { invoice_date := String.mk invoice_date
    invoice_amount := String.mk amount
    invoice_issuer := "不明な発行元"
    invoice_subject := fileName }

/-! ### Title cleanup for the authored branch (app.py line 365) -/

/-- Whitespace or a hyphen, the bracket class of the label-stripping
pattern of app.py line 365. -/
def isSpaceDash (c : Char) : Bool := isPySpace c || c = '-'

/-- Models the IGNORECASE `re.sub` of app.py line 365: remove one leading
`抄録:`, `Abstract:` or `Keywords:` label (case-insensitively) together
with the following whitespace/hyphens. -/
def stripLabel (cs : List Char) : List Char :=
  let l := pyLower cs
  if startsWithL "抄録:".data l then (cs.drop 3).dropWhile isSpaceDash
  else if startsWithL "abstract:".data l then (cs.drop 9).dropWhile isSpaceDash
  else if startsWithL "keywords:".data l then (cs.drop 9).dropWhile isSpaceDash
  else cs

/-- The fixed mock transcript of the audio branch (app.py line 210). -/
def mockTranscript : String :=
  "モック文字起こし: 2023年10月5日、田中商事から15000円の請求書を受領しました。件名はソフトウェアライセンスです。"

/-! ### analyze_file_content (app.py lines 200-422)

The rule-based analyzer.  The `uploaded_file` argument is used by the
source only through `uploaded_file.name`, embedded here as `fileName`.
UI progress calls (`st.info` etc.) are side-effect-free for the result
and are omitted. -/

/-- Models `analyze_file_content` (app.py lines 200-422). -/
def analyze_file_content (text_content fileName : String) (is_asr : Bool) :
    AICoreResponse :=
  if is_asr then
    -- audio branch (app.py lines 208-225): fixed mock transcript and data
    { category := .invoice
      extracted_data := some (.invoiceData
        { invoice_date := "2023-10-05"
          invoice_amount := "15000円"
          invoice_issuer := "田中商事"
          invoice_subject := "ソフトウェアライセンス" })
      reasoning := "音声ファイルが検出されました。ローカルASRモックにより文字起こしを行い、その結果から請求情報（日付、金額、発行元）を検出しました。"
      transcript := some mockTranscript }
  else
    let reasoning_detail :=
      "（著者文書スコア: " ++ Nat.repr (scoreAuthorDoc text_content) ++
      ", 請求書スコア: " ++ Nat.repr (scoreInvoice text_content) ++ "）"
    if 10 ≤ scoreAuthorDoc text_content ∧
        scoreInvoice text_content < scoreAuthorDoc text_content then
      -- authored-document branch (app.py lines 347-375)
      let detected_author : Option (List Char) :=
        ((headerScan text_content).1).map
          (fun a => a.filter (fun c => !(isPySpace c || c = '　')))
      let author : List Char :=
        match detected_author with
        | some a => if a = [] then "著者名不明".data else a
        | none => "著者名不明".data
      let best_title_candidate := (headerScan text_content).2
      let t0 : List Char :=
        if best_title_candidate ≠ [] then best_title_candidate
        else (splitextL fileName.data).1
      let t1 : List Char :=
        if t0 = [] || t0.length < 15 ||
            containsL (pyLower t0) "抄録".data ||
            containsL (pyLower t0) "abstract".data
        then (splitextL fileName.data).1 else t0
      { category := .authoredDocument
        extracted_data := some (.authorData
          { author := String.mk author, title := String.mk (stripLabel t1) })
        reasoning := "高度なパターンマッチングにより、著者情報（氏名と所属の組み合わせ）を検出（" ++
          Nat.repr (scoreAuthorDoc text_content) ++
          "点）。著者付き文書と判定し、タイトルは内容の要約に基づき生成しました。"
        transcript := none }
    else if 10 ≤ scoreInvoice text_content ∧
        scoreAuthorDoc text_content ≤ scoreInvoice text_content then
      -- invoice branch (app.py lines 378-397)
      { category := .invoice
        extracted_data := some (.invoiceData
          (invoiceExtractFromText text_content fileName))
        reasoning := "高度なパターンマッチングにより、請求キーワード、日付、金額（" ++
          Nat.repr (scoreInvoice text_content) ++
          "点）を検出し、請求書と判定しました。" ++ reasoning_detail
        transcript := none }
    else if pyStripL text_content.data ≠ [] then
      -- other branch (app.py lines 400-413)
      { category := .other
        extracted_data := some (.otherData
          { title := String.mk (splitextL fileName.data).1 })
        reasoning := "特定の文書パターン（著者文書、請求書）に一致しませんでした。" ++
          reasoning_detail ++ " ファイル名を元にリネームします。"
        transcript := none }
    else
      -- empty-text branch (app.py lines 414-422)
      { category := .unknown
        extracted_data := none
        reasoning := "ファイルから内容（テキスト）を抽出できませんでした。"
        transcript := none }

/-! ### apply_rename_rule (app.py lines 425-488)

The rename rule engine.  `data = ai_response.extracted_data.model_dump()
if ai_response.extracted_data else {}` turns the extracted data into a
dict; the getters below model `data.get(key, default)` on that dict: a
key is present exactly when the stored variant has a field of that name
(`title` exists in both `AuthorData` and `OtherData`). -/

/-- Models `data.get("author", default)` returning nothing for the
default case. -/
def getAuthor : Option ExtractedData → Option String
  | some (.authorData d) => some d.author
  | _ => none

/-- Models `data.get("title", default)` returning nothing for the default
case. -/
def getTitle : Option ExtractedData → Option String
  | some (.authorData d) => some d.title
  | some (.otherData d) => some d.title
  | _ => none

/-- Models `data.get("invoice_date", default)`. -/
def getInvoiceDate : Option ExtractedData → Option String
  | some (.invoiceData d) => some d.invoice_date
  | _ => none

/-- Models `data.get("invoice_amount", default)`. -/
def getInvoiceAmount : Option ExtractedData → Option String
  | some (.invoiceData d) => some d.invoice_amount
  | _ => none

/-- Models `data.get("invoice_issuer", default)`. -/
def getInvoiceIssuer : Option ExtractedData → Option String
  | some (.invoiceData d) => some d.invoice_issuer
  | _ => none

/-- Models `data.get("invoice_subject", default)`. -/
def getInvoiceSubject : Option ExtractedData → Option String
  | some (.invoiceData d) => some d.invoice_subject
  | _ => none

/-- The truncated author of app.py line 451: at most 15 characters. -/
def authorsShort (authors : String) : String :=
  if 15 < authors.length then String.mk (authors.data.take 15) else authors

/-- The truncated title of app.py lines 453-457: the author is truncated
first and the title receives the remaining budget out of 49 (one
character is reserved for the separator), with a floor of 0. -/
def titleShort (authors title : String) : String :=
  let max_total_len : Int := 50 - 1
  let max_title_len : Int := max_total_len - (authorsShort authors).length
  String.mk (title.data.take (max 0 max_title_len).toNat)

/-- The pre-sanitization authored-document name of app.py line 460:
author and title joined with an underscore, then `strip('_')`. -/
def authoredRawName (authors title : String) : String :=
  String.mk (stripUnderscoresL
    ((authorsShort authors).data ++ '_' :: (titleShort authors title).data))

/-- The pre-sanitization invoice name of app.py lines 465-477: date
digits (at most 8), issuer (at most 15), amount digits (defaulting to 0),
subject (at most 15), joined with underscores and not trimmed. -/
def invoiceRawName (ed : Option ExtractedData) : String :=
  let date_str_raw := (getInvoiceDate ed).getD "YYYYMMDD"
  let date_str := (date_str_raw.data.filter pyIsDigit).take 8
  let issuer := ((getInvoiceIssuer ed).getD "発行元不明").data.take 15
  let amount_raw := (getInvoiceAmount ed).getD "0"
  let amount0 := amount_raw.data.filter pyIsDigit
  let amount := if amount0 = [] then "0".data else amount0
  let subject := ((getInvoiceSubject ed).getD "件名なし").data.take 15
  String.mk (date_str ++ '_' :: issuer ++ '_' :: amount ++ '_' :: subject)

/-- The pre-sanitization other-category name of app.py line 482: the
title truncated to 30 characters. -/
def otherRawName (ed : Option ExtractedData) : String :=
  String.mk (((getTitle ed).getD "AI推測タイトル").data.take 30)

/-- Models `apply_rename_rule` (app.py lines 425-488).  The unknown
category returns the original name; the other three build their raw name,
sanitize it, and append the original extension.  (The final `else` of the
source is unreachable because `Category` has exactly the four literal
values.) -/
def apply_rename_rule (ai : AICoreResponse) (original_name : String) :
    String :=
  let ext := String.mk (splitextL original_name.data).2
  match ai.category with
  | .unknown => original_name
  | .authoredDocument =>
    let authors := (getAuthor ai.extracted_data).getD "著者名不明"
    let title := (getTitle ai.extracted_data).getD "タイトル不明"
    sanitize_filename (authoredRawName authors title) ++ ext
  | .invoice =>
    sanitize_filename (invoiceRawName ai.extracted_data) ++ ext
  | .other =>
    sanitize_filename (otherRawName ai.extracted_data) ++ ext

/-! ### Concrete instances used by counterexamples and witnesses -/

/-- A classification result of category Other whose title consists of
characters removed by sanitization. -/
def exC3 : AICoreResponse :=
  { category := .other
    extracted_data := some (.otherData { title := "@@@" })
    reasoning := "r"
    transcript := none }

/-- A document text with a confirmed structural author line (a bare-name
line followed by a university line) and an authored-document keyword. -/
def exC6Text : String :=
  "これは機械学習に関する長いタイトルです\n田中太郎\n東京大学情報理工学系研究科\nabstract"

/-- An invoice classification result whose date field contains no digit,
so that the date part of the joined name is empty. -/
def exC7 : AICoreResponse :=
  { category := .invoice
    extracted_data := some (.invoiceData
      { invoice_date := "YYYYMMDD"
        invoice_amount := "0"
        invoice_issuer := "ABC"
        invoice_subject := "x" })
    reasoning := "r"
    transcript := none }

/-! ### Helper lemmas -/

lemma splitextL_concat (cs : List Char) :
    (splitextL cs).1 ++ (splitextL cs).2 = cs := by
  unfold splitextL
  cases h : lastIdx '.' cs with
  | none => simp
  | some d =>
    dsimp only
    split_ifs <;> simp [List.take_append_drop]

lemma stripUnderscoresL_isPre (l : List Char) :
    stripUnderscoresL l <+: l.dropWhile (· = '_') := by
  unfold stripUnderscoresL
  have h := List.dropWhile_suffix (l := (l.dropWhile (· = '_')).reverse)
    (p := (· = '_'))
  rw [← List.reverse_suffix]
  simpa using h

lemma stripUnderscoresL_head (l : List Char) :
    (stripUnderscoresL l).head? ≠ some '_' := by
  intro hh
  obtain ⟨t, ht⟩ := stripUnderscoresL_isPre l
  have hbase := List.head?_dropWhile_not (fun c => decide (c = '_')) l
  cases hs : stripUnderscoresL l with
  | nil => rw [hs] at hh; simp at hh
  | cons c r =>
    rw [hs] at hh
    simp at hh
    rw [hs, hh] at ht
    rw [← ht] at hbase
    simp at hbase

lemma stripUnderscoresL_getLast (l : List Char) :
    (stripUnderscoresL l).getLast? ≠ some '_' := by
  rw [← List.head?_reverse]
  unfold stripUnderscoresL
  rw [List.reverse_reverse]
  have hbase := List.head?_dropWhile_not (fun c => decide (c = '_'))
    ((l.dropWhile (· = '_')).reverse)
  intro hh
  rw [hh] at hbase
  simp at hbase

/-! ### Claim theorems -/

/-- Claim C1: for every non-audio input text, the classifier assigns the
category by the exact fixed priority: AuthoredDocument if the
authored-document score is at least 10 and strictly greater than the
invoice score; else Invoice if the invoice score is at least 10 and at
least the authored-document score; else Other if the text is non-empty
after trimming whitespace; else Unknown. -/
theorem claim1_decision_priority (text fileName : String) :
    (analyze_file_content text fileName false).category =
      (if 10 ≤ scoreAuthorDoc text ∧ scoreInvoice text < scoreAuthorDoc text
       then Category.authoredDocument
       else if 10 ≤ scoreInvoice text ∧
           scoreAuthorDoc text ≤ scoreInvoice text
       then Category.invoice
       else if pyStripL text.data ≠ [] then Category.other
       else Category.unknown) := by
  unfold analyze_file_content
  simp only [Bool.false_eq_true, if_false]
  split_ifs <;> rfl

/-- Claim C2: for every input (any text, any filename, audio or not),
the result of the analyzer has extracted data equal to none if and only
if its category is Unknown. -/
theorem claim2_extracted_data_iff_unknown (text fileName : String)
    (is_asr : Bool) :
    (analyze_file_content text fileName is_asr).extracted_data = none ↔
      (analyze_file_content text fileName is_asr).category =
        Category.unknown := by
  cases is_asr with
  | true => simp [analyze_file_content]
  | false =>
    unfold analyze_file_content
    simp only [Bool.false_eq_true, if_false]
    split_ifs <;> simp

/-- Claim C3 counterexample: for the Other result with title consisting
only of characters removed by sanitization and the original name
`foo.txt`, the rename engine returns `.txt`, whose extension according to
`os.path.splitext` is empty while the original's is `.txt`; hence the
returned filename's extension is not exactly the original's. -/
theorem claim3_counterexample :
    (splitext (apply_rename_rule exC3 "foo.txt")).2 ≠
      (splitext "foo.txt").2 := by decide

/-- Claim C3 amended: for every classification result and original
filename, the rename engine appends the original filename's
`os.path.splitext` extension verbatim — the returned filename is some
base followed by exactly that extension (in the Unknown case the original
name, which is its own root plus extension, is returned unchanged).  The
returned name's own splitext extension may nevertheless differ, as the
counterexample shows. -/
theorem claim3_amended_extension_appended (ai : AICoreResponse)
    (name : String) :
    ∃ base : String,
      apply_rename_rule ai name =
        base ++ String.mk (splitextL name.data).2 := by
  obtain ⟨cat, ed, r, tr⟩ := ai
  cases cat with
  | unknown =>
    refine ⟨String.mk (splitextL name.data).1, ?_⟩
    show name = String.mk ((splitextL name.data).1 ++ (splitextL name.data).2)
    rw [splitextL_concat]
  | authoredDocument => exact ⟨_, rfl⟩
  | invoice => exact ⟨_, rfl⟩
  | other => exact ⟨_, rfl⟩

/-- Claim C4: for every AuthoredDocument result, with the author
truncated to at most 15 characters first and the title truncated to the
remaining budget (minimum 0), the pre-sanitization name satisfies
author length + 1 + title length ≤ 50. -/
theorem claim4_length_bound (authors title : String) :
    (authorsShort authors).length + 1 + (titleShort authors title).length
      ≤ 50 := by
  have hA : (authorsShort authors).length ≤ 15 := by
    unfold authorsShort
    split_ifs with h
    · show (authors.data.take 15).length ≤ 15
      simp [List.length_take]
    · exact Nat.le_of_not_lt h
  have hT : (titleShort authors title).length ≤
      49 - (authorsShort authors).length := by
    unfold titleShort
    show (title.data.take _).length ≤ _
    rw [List.length_take]
    have h0 : (0 : Int) ≤ 50 - 1 - (authorsShort authors).length := by
      omega
    rw [max_eq_right h0]
    omega
  omega

/-- Claim C5 counterexample: for a concrete audio input, the extracted
data returned by the analyzer is not the result of running the
Invoice-pattern extractor on the transcript (the analyzer returns
hard-coded mock fields; in particular the issuer is 田中商事 while the
extractor always produces 不明な発行元). -/
theorem claim5_counterexample :
    (analyze_file_content "テスト" "voice.mp3" true).extracted_data ≠
      some (.invoiceData (invoiceExtractFromText mockTranscript
        "voice.mp3")) := by decide

/-- Claim C5 amended: for every audio input (any text, any filename), the
analyzer skips all text scoring and returns one fixed mock result:
category Invoice, transcript the fixed mock string, and hard-coded
invoice fields (date 2023-10-05, amount 15000円, issuer 田中商事,
subject ソフトウェアライセンス); it does not run the Invoice-pattern
extractor on the transcript.  In particular an audio input never yields
category Other or AuthoredDocument. -/
theorem claim5_audio_fixed_mock (text fileName : String) :
    analyze_file_content text fileName true =
      { category := .invoice
        extracted_data := some (.invoiceData
          { invoice_date := "2023-10-05"
            invoice_amount := "15000円"
            invoice_issuer := "田中商事"
            invoice_subject := "ソフトウェアライセンス" })
        reasoning := "音声ファイルが検出されました。ローカルASRモックにより文字起こしを行い、その結果から請求情報（日付、金額、発行元）を検出しました。"
        transcript := some mockTranscript } := rfl

/-- Claim C6 counterexample: a concrete text with a confirmed structural
author line and a matched authored-document keyword, for which the final
authored-document score is strictly less than keyword score + 10: the
confirmation does not add 10-13 points on top of the keyword score. -/
theorem claim6_counterexample :
    (headerScan exC6Text).1.isSome = true ∧
      scoreAuthorDoc exC6Text < authorKeywordScore exC6Text + 10 := by
  decide

/-- Claim C6 amended: for every non-audio text in which a structural
author line is confirmed, the confirmation raises the authored-document
score to the maximum of the keyword score and 10 (so it adds 10 points
when no keyword matched and 5 points when the +5 keyword bonus applied,
never 13). -/
theorem claim6_confirmation_max (text : String)
    (h : (headerScan text).1.isSome = true) :
    scoreAuthorDoc text = max (authorKeywordScore text) 10 := by
  simp [scoreAuthorDoc, h]

/-- Witness for the amended C6 at the concrete confirmed-author text. -/
theorem claim6_confirmation_max_witness :
    (headerScan exC6Text).1.isSome = true ∧
      scoreAuthorDoc exC6Text = max (authorKeywordScore exC6Text) 10 :=
  ⟨by decide, claim6_confirmation_max exC6Text (by decide)⟩

/-- Claim C7 counterexample: for a concrete Invoice result whose date
field contains no digits, the rename engine's output keeps the leading
underscore of the joined name, differing from what joining, trimming
leading/trailing underscores, then sanitizing would produce. -/
theorem claim7_counterexample :
    apply_rename_rule exC7 "f.txt" ≠
      sanitize_filename (String.mk (stripUnderscoresL
        (invoiceRawName exC7.extracted_data).data)) ++
        String.mk (splitextL ("f.txt" : String).data).2 := by decide

/-- Claim C7 amended: the template fields are joined with underscores,
but leading/trailing underscores are trimmed only in the AuthoredDocument
branch (whose pre-sanitization name therefore never starts or ends with
an underscore); the Invoice branch sanitizes the joined string untrimmed,
and the Other branch has a single field. -/
theorem claim7_trim_only_authored (authors title : String) :
    (authoredRawName authors title).data.head? ≠ some '_' ∧
      (authoredRawName authors title).data.getLast? ≠ some '_' := by
  constructor
  · show (stripUnderscoresL _).head? ≠ some '_'
    exact stripUnderscoresL_head _
  · show (stripUnderscoresL _).getLast? ≠ some '_'
    exact stripUnderscoresL_getLast _

/-- Claim C8: for every Invoice result, the pre-sanitization renamed base
name is the underscore-join of: the digits of the invoice date truncated
to at most 8 characters, the issuer truncated to at most 15 characters,
the digits of the amount (defaulting to 0 when no digit is present), and
the subject truncated to at most 15 characters — and the engine returns
that joined name sanitized, with the original extension appended. -/
theorem claim8_invoice_template (d : InvoiceData) (r : String)
    (tr : Option String) (name : String) :
    apply_rename_rule
        { category := .invoice, extracted_data := some (.invoiceData d),
          reasoning := r, transcript := tr } name =
      sanitize_filename (String.mk
        ((d.invoice_date.data.filter pyIsDigit).take 8 ++ '_' ::
         d.invoice_issuer.data.take 15 ++ '_' ::
         (if d.invoice_amount.data.filter pyIsDigit = [] then "0".data
          else d.invoice_amount.data.filter pyIsDigit) ++ '_' ::
         d.invoice_subject.data.take 15)) ++
      String.mk (splitextL name.data).2 := rfl

end SmartRename
